import Mathlib

/-!
Shallow embedding of `src/saling_analyzer.py` (a sales-analytics dashboard
for a clothing brand).  Pure helper functions of the Python file are
translated to executable Lean definitions; Python floats are modelled as
rationals (`ℚ`), Python `None` as `Option`, pandas dataframes as lists of
row structures, and the hosted database as an explicit state record.
-/

/-- Python whitespace characters recognised by `str.strip()` / `\s`,
restricted to ASCII (all strings handled by the program are ASCII or
Korean text without exotic whitespace). -/
def isPySpace (c : Char) : Bool :=
  c = ' ' || c = '\t' || c = '\n' || c = '\r' || c = '\x0b' || c = '\x0c'

/-- `str.strip()` on a character list: drop whitespace on both ends. -/
def pyStrip (cs : List Char) : List Char :=
  ((cs.dropWhile isPySpace).reverse.dropWhile isPySpace).reverse

/-- `str.strip()` on a `String`. -/
def pyStripS (s : String) : String :=
  String.mk (pyStrip s.data)

example : pyStripS "  abc " = "abc" := by decide

/-- Characters removed by `re.sub(r"[\(\)\[\]\{\}]", " ", s)` in
`_norm_fiber_name`: round, square and curly brackets. -/
def isBracketChar (c : Char) : Bool :=
  c = '(' || c = ')' || c = '[' || c = ']' || c = '\x7b' || c = '\x7d'

/-- Collapse runs of spaces to a single space (the effect of
`re.sub(r"\s+", " ", s)` after every whitespace character has been mapped
to a plain space). -/
def squeezeSpaces : List Char → List Char
  | [] => []
  | [c] => [c]
  | a :: b :: tl =>
    if a = ' ' && b = ' ' then squeezeSpaces (b :: tl)
    else a :: squeezeSpaces (b :: tl)

/-- The normalisation pre-pass of `_norm_fiber_name`:
`str(name).strip().upper()`, brackets to spaces, whitespace runs to a
single space, and a final strip. -/
def cleanFiberName (name : String) : String :=
  let s1 := (pyStrip name.data).map Char.toUpper
  let s2 := s1.map (fun c => if isBracketChar c then ' ' else c)
  let s3 := squeezeSpaces (s2.map (fun c => if isPySpace c then ' ' else c))
  String.mk (pyStrip s3)

/-- `a` matches `b` position by position from the start (prefix test). -/
def matchFront : List Char → List Char → Bool
  | [], _ => true
  | _ :: _, [] => false
  | a :: as, b :: bs => a = b && matchFront as bs

/-- Python substring test `a in s` on character lists. -/
def hasSubstring : List Char → List Char → Bool
  | a, [] => a.isEmpty
  | a, c :: tl => matchFront a (c :: tl) || hasSubstring a tl

/-- `FIBER_ALIASES` from the source, as an ordered association list
(Python dicts iterate in insertion order, which the two lookup loops of
`_norm_fiber_name` rely on). -/
def FIBER_ALIASES : List (String × List String) :=
  [ ("COTTON", ["COTTON", "CO", "CT", "COTNA"]),
    ("POLYESTER", ["POLYESTER", "PES", "PE", "PL"]),
    ("NYLON", ["NYLON", "PA", "N", "NL"]),
    ("RAYON", ["RAYON", "VISCOSE", "VISC", "VI", "LYOCELL", "TENCEL", "MODAL"]),
    ("WOOL", ["WOOL", "WL"]),
    ("ACRYLIC", ["ACRYLIC", "AC"]),
    ("SPANDEX", ["SPANDEX", "ELASTANE", "ELASTIN", "ELASTINE", "PU", "SP", "LYCRA"]),
    ("POLYURETHANE", ["POLYURETHANE", "PU"]) ]

def SYNTHETIC_SET : List String := ["POLYESTER", "NYLON", "ACRYLIC", "POLYURETHANE"]
def NATURAL_SET : List String := ["COTTON", "WOOL"]
def REGENERATED_SET : List String := ["RAYON"]

/-- `_norm_fiber_name`: empty input maps to `""`; otherwise normalise and
look the result up in `FIBER_ALIASES`, first by exact alias equality, then
by alias-substring containment, each in dictionary order; unknown names
are returned unchanged. -/
def normFiberName (name : String) : String :=
  if name = "" then ""
  else
    let s := cleanFiberName name
    match FIBER_ALIASES.find? (fun p => p.2.any (fun a => a == s)) with
    | some p => p.1
    | none =>
      match FIBER_ALIASES.find? (fun p =>
          p.2.any (fun a => a ≠ "" && hasSubstring a.data s.data)) with
      | some p => p.1
      | none => s

/-- Delimiters of `_split_tokens` (`re.split(r"[/,|]+", ...)`). -/
def isTokenDelim (c : Char) : Bool :=
  c = '/' || c = ',' || c = '|'

/-- Split a character list at every delimiter character (runs of
delimiters produce empty pieces, discarded below exactly as the
comprehension in `_split_tokens` discards blank tokens). -/
def splitRaw : List Char → List (List Char)
  | [] => [[]]
  | c :: tl =>
    if isTokenDelim c then [] :: splitRaw tl
    else
      match splitRaw tl with
      | [] => [[c]]
      | h :: t => (c :: h) :: t

/-- `_split_tokens`: split on `/`, `,`, `|`, strip each piece, keep the
non-blank ones. -/
def splitTokens (s : String) : List String :=
  ((splitRaw s.data).map (fun t => String.mk (pyStrip t))).filter (fun t => t ≠ "")

example : splitTokens "COTTON / PE" = ["COTTON", "PE"] := by decide
example : splitTokens "a,,b||c/" = ["a", "b", "c"] := by decide

/-- Maximal run of decimal digits at the front, and the remainder. -/
def digitRun (cs : List Char) : List Char × List Char :=
  (cs.takeWhile Char.isDigit, cs.dropWhile Char.isDigit)

/-- Numeric value of a digit run. -/
def natOfDigits (ds : List Char) : Nat :=
  ds.foldl (fun acc d => 10 * acc + (d.toNat - 48)) 0

/-- The unsigned part of the regex `[-+]?\d*\.?\d+` matched greedily at
the head of `cs` (Python `re` semantics: greedy `\d*`, optional dot, then
at least one digit, with backtracking), converted directly to its
rational value.  Returns `none` when the regex does not match here. -/
def numCore (cs : List Char) : Option ℚ :=
  let d1 := (digitRun cs).1
  let r1 := (digitRun cs).2
  if d1 = [] then
    match r1 with
    | '.' :: r2 =>
      let d2 := (digitRun r2).1
      if d2 = [] then none
      else some ((natOfDigits d2 : ℚ) / ((10 : ℚ) ^ d2.length))
    | _ => none
  else
    match r1 with
    | '.' :: r2 =>
      let d2 := (digitRun r2).1
      if d2 = [] then some (natOfDigits d1 : ℚ)
      else some ((natOfDigits d1 : ℚ) + (natOfDigits d2 : ℚ) / ((10 : ℚ) ^ d2.length))
    | _ => some (natOfDigits d1 : ℚ)

/-- Attempt of the full regex `[-+]?\d*\.?\d+` at the current position:
an optional sign followed by the unsigned part (a sign not followed by a
number cannot match, matching the regex backtracking). -/
def numAt (cs : List Char) : Option ℚ :=
  match cs with
  | '+' :: tl => numCore tl
  | '-' :: tl => (numCore tl).map (fun q => -q)
  | _ => numCore cs

/-- `float(re.findall(r"[-+]?\d*\.?\d+", r)[0])`: leftmost match of the
number regex in the token, as a rational; `none` when the token holds no
number (such tokens are skipped by `parse_blend_components`). -/
def findNum : List Char → Option ℚ
  | [] => none
  | c :: tl =>
    match numAt (c :: tl) with
    | some v => some v
    | none => findNum tl

/-- `findNum` on a `String` ratio token. -/
def findNumS (s : String) : Option ℚ := findNum s.data

example : findNumS "60" = some 60 := by decide
example : findNumS "12.5%" = some (25 / 2) := by
  simp [findNumS, findNum, numAt, numCore, digitRun, natOfDigits]; norm_num
example : findNumS "-.5" = some (-(1 / 2)) := by
  simp [findNumS, findNum, numAt, numCore, digitRun, natOfDigits]; norm_num
example : findNumS "abc" = none := by decide

/-- `parse_blend_components(blend_fibers, blend_ratio)`: tokenise both
strings, extract the first number of every ratio token, truncate both
lists to the shorter length, discard the blend when the truncated ratios
sum to a non-positive value, and pair each normalised fiber name with its
ratio. -/
def parse_blend_components (blend_fibers blend_rt : String) : List (String × ℚ) :=
  if blend_fibers = "" || blend_rt = "" then []
  else
    let fibers := splitTokens blend_fibers
    let ratiosNum := (splitTokens blend_rt).filterMap findNumS
    if fibers = [] || ratiosNum = [] then []
    else
      let n := min fibers.length ratiosNum.length
      let fibers2 := fibers.take n
      let rn2 := ratiosNum.take n
      if rn2.sum ≤ 0 then []
      else (fibers2.zip rn2).map (fun p => (normFiberName p.1, p.2))

example : parse_blend_components "COTTON/PE" "60/40" =
    [("COTTON", 60), ("POLYESTER", 40)] := by
  simp +decide [parse_blend_components, splitTokens, splitRaw, isTokenDelim, pyStrip,
    findNumS, findNum, numAt, numCore, digitRun, natOfDigits, normFiberName,
    cleanFiberName, FIBER_ALIASES, squeezeSpaces, isPySpace, isBracketChar]
  norm_num
example : parse_blend_components "COTTON" "0" = [] := by
  simp +decide [parse_blend_components, splitTokens, splitRaw, isTokenDelim, pyStrip,
    findNumS, findNum, numAt, numCore, digitRun, natOfDigits]

/-- Python `round` ties-to-even (banker's rounding) on a rational. -/
def pyRoundInt (q : ℚ) : ℤ :=
  let f := ⌊q⌋
  let r := q - f
  if r < 1 / 2 then f
  else if 1 / 2 < r then f + 1
  else if f % 2 = 0 then f else f + 1

/-- Python `round(x, 2)` modelled on rationals. -/
def round2 (q : ℚ) : ℚ := (pyRoundInt (q * 100) : ℚ) / 100

/-- The record returned by `derive_blend_features` (Python `None` is
`Option.none`; the pandas floats are rationals). -/
structure BlendFeatures where
  pct_cotton : Option ℚ
  pct_synthetic : Option ℚ
  pct_regenerated : Option ℚ
  pct_spandex : Option ℚ
  n_fibers : Option Nat
deriving Repr, DecidableEq

/-- The accumulation loop body of `derive_blend_features`: for a component
`(f, r)` add `p = r / total * 100` to each class accumulator whose
membership test `f` passes.  Accumulator order: cotton, synthetic,
regenerated, spandex. -/
def blendStep (total : ℚ) (acc : ℚ × ℚ × ℚ × ℚ) (p : String × ℚ) : ℚ × ℚ × ℚ × ℚ :=
  let pr := p.2 / total * 100
  ( (if NATURAL_SET.contains p.1 && p.1 == "COTTON" then acc.1 + pr else acc.1),
    (if SYNTHETIC_SET.contains p.1 then acc.2.1 + pr else acc.2.1),
    (if REGENERATED_SET.contains p.1 then acc.2.2.1 + pr else acc.2.2.1),
    (if p.1 == "SPANDEX" || p.1 == "POLYURETHANE" then acc.2.2.2 + pr else acc.2.2.2) )

/-- `derive_blend_features(혼용원단, 혼용율)` (parameters romanised):
parse the blend, return all-`None` when parsing discards it, otherwise
accumulate per-class percentage shares over the components and round each
share to two decimals. -/
def derive_blend_features (blend_fibers blend_rt : String) : BlendFeatures :=
  let comps := parse_blend_components blend_fibers blend_rt
  if comps = [] then ⟨none, none, none, none, none⟩
  else
    let total := (comps.map (fun p => p.2)).sum
    if total ≤ 0 then ⟨none, none, none, none, some comps.length⟩
    else
      let acc := comps.foldl (blendStep total) (0, 0, 0, 0)
      ⟨some (round2 acc.1), some (round2 acc.2.1), some (round2 acc.2.2.1),
        some (round2 acc.2.2.2), some comps.length⟩

/-- The dictionary built by `parse_item_code` for a code that passed the
length check.  Each field keeps the source's conditional: a position that
does not exist in the (stripped) code is `None`. -/
structure ParsedCode where
  brand : Option Char
  gender : Option Char
  item_code : Option String
  sequence : Option String
  year : Option Char
  season : Option Char
deriving Repr, DecidableEq

/-- `parse_item_code(code)`: `None` for a falsy (empty) code; strip, then
`None` for fewer than 8 characters; otherwise fixed-position slices
`code[0]`, `code[1]`, `code[2:4]`, `code[4:7]`, `code[7]`, `code[8]`,
each guarded by the length test the source writes. -/
def parse_item_code (code : String) : Option ParsedCode :=
  if code = "" then none
  else
    let c := pyStrip code.data
    if c.length < 8 then none
    else
      some
        { brand := c.get? 0
          gender := c.get? 1
          item_code := if 4 ≤ c.length then some (String.mk ((c.drop 2).take 2)) else none
          sequence := if 7 ≤ c.length then some (String.mk ((c.drop 4).take 3)) else none
          year := if 8 ≤ c.length then c.get? 7 else none
          season := if 9 ≤ c.length then c.get? 8 else none }

/-- `ITEM_MAPPING` from the source (two-letter item code to item name). -/
def ITEM_MAPPING : List (String × String) :=
  [ ("DJ", "다운점퍼"), ("DV", "다운베스트"), ("JK", "자켓"), ("JP", "점퍼"),
    ("KC", "니트가디건"), ("PD", "패딩"), ("VT", "베스트"), ("WJ", "윈드브레이커"), ("WT", "우븐티셔츠"),
    ("HD", "후드티"), ("KP", "스웨터풀오버"), ("KV", "스웨터베스트"), ("KU", "반팔스웨터"),
    ("MT", "맨투맨"), ("OP", "원피스"), ("PQ", "폴로티셔츠"), ("RL", "긴팔티셔츠"),
    ("RS", "반팔티셔츠"), ("TR", "트레이닝상의"), ("WS", "우븐셔츠"),
    ("LG", "레깅스"), ("PT", "팬츠"), ("SK", "스커트"), ("SP", "반바지"),
    ("SR", "여성하의스코트"), ("TB", "트레이닝숏팬츠"), ("TP", "트레이닝하의"),
    ("BR", "브라"), ("SL", "슬리브리스") ]

/-- `CATEGORY_MAPPING` from the source (item code to category). -/
def CATEGORY_MAPPING : List (String × String) :=
  [ ("DJ", "아우터"), ("DV", "아우터"), ("JK", "아우터"), ("JP", "아우터"), ("KC", "아우터"),
    ("PD", "아우터"), ("VT", "아우터"), ("WJ", "아우터"), ("WT", "아우터"),
    ("HD", "이너"), ("KP", "이너"), ("KV", "이너"), ("KU", "이너"), ("MT", "이너"),
    ("OP", "이너"), ("PQ", "이너"), ("RL", "이너"), ("RS", "이너"), ("TR", "이너"), ("WS", "이너"),
    ("LG", "하의"), ("PT", "하의"), ("SK", "하의"), ("SP", "하의"), ("SR", "하의"),
    ("TB", "하의"), ("TP", "하의"),
    ("BR", "기타"), ("SL", "기타") ]

def GENDER_MAPPING : List (Char × String) := [('M', "남성"), ('W', "여성"), ('U', "공용")]
def SEASON_MAPPING : List (Char × String) := [('1', "봄"), ('3', "여름"), ('4', "가을"), ('6', "겨울")]
def YEAR_MAPPING : List (Char × String) := [('3', "2023"), ('4', "2024"), ('5', "2025"), ('6', "2026")]

/-- Python `dict.get(key, default)` on a string-keyed association list,
where the key may itself be `None` (never a dictionary key). -/
def pyGetS (m : List (String × String)) (k : Option String) (d : String) : String :=
  match k with
  | none => d
  | some s =>
    match m.find? (fun p => p.1 == s) with
    | some p => p.2
    | none => d

/-- Python `dict.get(key, default)` on a char-keyed association list. -/
def pyGetC (m : List (Char × String)) (k : Option Char) (d : String) : String :=
  match k with
  | none => d
  | some s =>
    match m.find? (fun p => p.1 == s) with
    | some p => p.2
    | none => d

/-- The five derived columns appended per row by `enrich_sales_data`
(성별, 아이템명, 카테고리, 연도, 시즌 — field names romanised). -/
structure EnrichedFields where
  gender : String
  item_name : String
  category : String
  year : String
  season : String
deriving Repr, DecidableEq

/-- The per-row body of the loop in `enrich_sales_data` (only the 품번
column of the row is read): decode the style code and map the parts
through the static tables, with the unknown defaults when decoding
fails. -/
def enrich_row (code : String) : EnrichedFields :=
  match parse_item_code code with
  | some p =>
    { gender := pyGetC GENDER_MAPPING p.gender "알수없음"
      item_name := pyGetS ITEM_MAPPING p.item_code "알수없음"
      category := pyGetS CATEGORY_MAPPING p.item_code "기타"
      year := pyGetC YEAR_MAPPING p.year "알수없음"
      season := pyGetC SEASON_MAPPING p.season "알수없음" }
  | none =>
    { gender := "알수없음", item_name := "알수없음", category := "기타",
      year := "알수없음", season := "알수없음" }

/-- `enrich_sales_data`, restricted to the data it reads and produces:
the list of 품번 codes in, the list of appended column records out. -/
def enrich_sales_data (codes : List String) : List EnrichedFields :=
  codes.map enrich_row

example : enrich_row "TWPQ10953" =
    ⟨"여성", "폴로티셔츠", "이너", "2025", "여름"⟩ := by decide
example : enrich_row "short" = ⟨"알수없음", "알수없음", "기타", "알수없음", "알수없음"⟩ := by decide

/-- A raw uploaded sales row (columns of `SALES_COLS`; text cells as the
strings pandas `astype(str)` yields, numeric cells already coerced by
`pd.to_numeric(errors="coerce")` so a non-number is `none`).  Field names
romanise 품번/컬러/가격/제조방식/소재명/핏/기장/당시즌판매수량/당시즌판매액. -/
structure SalesRow where
  item_no : String
  color : String
  price : Option ℚ
  manufacturing : String
  material : String
  fit : String
  garment_len : String
  qty : Option ℚ
  amt : Option ℚ
deriving Repr, DecidableEq

/-- A sales record as inserted into the `sales_data` table (numeric
columns filled with `0` by `.fillna(0)`). -/
structure SalesRecord where
  item_no : String
  color : String
  price : ℚ
  manufacturing : String
  material : String
  fit : String
  garment_len : String
  qty : ℚ
  amt : ℚ
deriving Repr, DecidableEq

/-- A raw uploaded material row (columns of `MATERIAL_COLS`). -/
structure MaterialRow where
  material : String
  supplier : String
  blend_fibers : String
  blend_rt : String
  weight : Option ℚ
  organization : String
  ct_pct : Option ℚ
  sf_pct : Option ℚ
  fb_lv : Option ℚ
deriving Repr, DecidableEq

/-- The hosted database, as the two tables the program writes. -/
structure DBState where
  sales_data : List SalesRecord
  material_data : List MaterialRow
deriving Repr, DecidableEq

/-- The per-cell body of `fill_required_text`: `astype(str)` artefacts
`"None"`/`"nan"` become blank, the cell is stripped, and a blank cell
receives the default. -/
def fillRequiredTextCell (default s : String) : String :=
  let t := if s = "None" || s = "nan" then "" else s
  let t2 := pyStripS t
  if t2 = "" then default else t2

/-- The text clean-up `replace(["None","nan"],"") … strip()` applied to the
material text columns (no default back-fill). -/
def cleanTextCell (s : String) : String :=
  pyStripS (if s = "None" || s = "nan" then "" else s)

/-- Preprocessing of one uploaded sales row inside `replace_sales_data`:
required text columns 품번/컬러/제조방식/소재명/핏/기장 through
`fill_required_text` (default `"UNKNOWN"`), numeric columns through
`to_numeric(...).fillna(0)`.  `make_json_safe_df` is the identity here
because rationals have no NaN/Inf. -/
def prepSalesRow (r : SalesRow) : SalesRecord :=
  { item_no := fillRequiredTextCell "UNKNOWN" r.item_no
    color := fillRequiredTextCell "UNKNOWN" r.color
    price := r.price.getD 0
    manufacturing := fillRequiredTextCell "UNKNOWN" r.manufacturing
    material := fillRequiredTextCell "UNKNOWN" r.material
    fit := fillRequiredTextCell "UNKNOWN" r.fit
    garment_len := fillRequiredTextCell "UNKNOWN" r.garment_len
    qty := r.qty.getD 0
    amt := r.amt.getD 0 }

/-- Preprocessing of one uploaded material row inside
`replace_material_data`: 소재명 through `fill_required_text` with default
`"UNKNOWN_MATERIAL"`, the numeric columns coerced (no fill), the other
text columns cleaned and stripped. -/
def prepMaterialRow (r : MaterialRow) : MaterialRow :=
  { material := fillRequiredTextCell "UNKNOWN_MATERIAL" r.material
    supplier := cleanTextCell r.supplier
    blend_fibers := cleanTextCell r.blend_fibers
    blend_rt := cleanTextCell r.blend_rt
    weight := r.weight
    organization := cleanTextCell r.organization
    ct_pct := r.ct_pct
    sf_pct := r.sf_pct
    fb_lv := r.fb_lv }

/-- `replace_sales_data(df_upload)` on the connected path: first the
unconditional `delete().neq("id", 0)` clearing the whole table, then the
upload is preprocessed; an empty record list returns `False` (the delete
already executed), otherwise the records are inserted and `True`
returned. -/
def replace_sales_data (db : DBState) (df_upload : List SalesRow) : DBState × Bool :=
  let db1 : DBState := { db with sales_data := [] }
  let records := df_upload.map prepSalesRow
  if records = [] then (db1, false)
  else ({ db1 with sales_data := db1.sales_data ++ records }, true)

/-- `replace_material_data(df_upload)` on the connected path: delete the
whole `material_data` table, then preprocess; an empty record list returns
`False` with the table already cleared, otherwise insert and return
`True`. -/
def replace_material_data (db : DBState) (df_upload : List MaterialRow) : DBState × Bool :=
  let db1 : DBState := { db with material_data := [] }
  let records := df_upload.map prepMaterialRow
  if records = [] then (db1, false)
  else ({ db1 with material_data := db1.material_data ++ records }, true)

/-- The target tuple sent to the combination-prediction endpoint. -/
structure PredTarget where
  gender : String
  item_name : String
  manufacturing : String
  material : String
  fit : String
  garment_len : String
deriving Repr, DecidableEq

/-- A historical sales row as the prediction service sees it: the six
match fields plus season quantity and revenue. -/
structure HistRow where
  gender : String
  item_name : String
  manufacturing : String
  material : String
  fit : String
  garment_len : String
  qty : ℚ
  amt : ℚ
deriving Repr, DecidableEq

/-- Tier-95 match: exact match on all six fields. -/
def match95 (t : PredTarget) (r : HistRow) : Bool :=
  r.gender == t.gender && r.item_name == t.item_name &&
    r.manufacturing == t.manufacturing && r.material == t.material &&
    r.fit == t.fit && r.garment_len == t.garment_len

/-- Tier-80 match: the fit constraint is dropped. -/
def match80 (t : PredTarget) (r : HistRow) : Bool :=
  r.gender == t.gender && r.item_name == t.item_name &&
    r.manufacturing == t.manufacturing && r.material == t.material &&
    r.garment_len == t.garment_len

/-- Tier-65 match: fit and material dropped. -/
def match65 (t : PredTarget) (r : HistRow) : Bool :=
  r.gender == t.gender && r.item_name == t.item_name &&
    r.manufacturing == t.manufacturing && r.garment_len == t.garment_len

/-- Tier-45 match: fit, material and manufacturing dropped. -/
def match45 (t : PredTarget) (r : HistRow) : Bool :=
  r.gender == t.gender && r.item_name == t.item_name && r.garment_len == t.garment_len

/-- The prediction payload returned by the service. -/
structure PredResult where
  pred_qty : ℚ
  pred_amt : ℚ
  confidence : ℚ
deriving Repr, DecidableEq

/-- Mean quantity of a match set. -/
def avgQty (rows : List HistRow) : ℚ := (rows.map (fun r => r.qty)).sum / rows.length

/-- Mean revenue of a match set. -/
def avgAmt (rows : List HistRow) : ℚ := (rows.map (fun r => r.amt)).sum / rows.length

/-- Modelled from the spec: the cascading similarity predictor of the
external `fn_predict` serverless function, whose implementation is not in
this repository (the repository only posts the target tuple to it).
Per the spec: search historical rows for an exact match on the target
tuple (gender, item, manufacturing, material, fit, length); if none,
progressively drop the trailing constraints fit, then material, then
manufacturing, average the remaining matches' quantity and revenue, and
assign the fixed confidence 95/80/65/45 of the tier reached.  `none` when
even the loosest tier has no match. -/
def fn_predict (rows : List HistRow) (t : PredTarget) : Option PredResult :=
  let m95 := rows.filter (match95 t)
  if m95 ≠ [] then some ⟨avgQty m95, avgAmt m95, 95⟩
  else
    let m80 := rows.filter (match80 t)
    if m80 ≠ [] then some ⟨avgQty m80, avgAmt m80, 80⟩
    else
      let m65 := rows.filter (match65 t)
      if m65 ≠ [] then some ⟨avgQty m65, avgAmt m65, 65⟩
      else
        let m45 := rows.filter (match45 t)
        if m45 ≠ [] then some ⟨avgQty m45, avgAmt m45, 45⟩
        else none

/-- Percentage share of one fiber class: the summed ratios of the
components whose (normalised) name passes the membership test, divided by
the total ratio, times 100. -/
def classShare (comps : List (String × ℚ)) (total : ℚ) (memb : String → Bool) : ℚ :=
  (((comps.filter (fun p => memb p.1)).map (fun p => p.2)).sum) / total * 100

/-- Splitting on `"/"` alone, as the claim words it (the source also
splits on `","` and `"|"`); used only to compare the claim's reading with
the code. -/
def splitRawSlash : List Char → List (List Char)
  | [] => [[]]
  | c :: tl =>
    if c = '/' then [] :: splitRawSlash tl
    else
      match splitRawSlash tl with
      | [] => [[c]]
      | h :: t => (c :: h) :: t

/-- Claim-side `_split_tokens`: split on `"/"` only, strip, drop blanks. -/
def splitTokensSlash (s : String) : List String :=
  ((splitRawSlash s.data).map (fun t => String.mk (pyStrip t))).filter (fun t => t ≠ "")

/-- Claim-side `parse_blend_components`, identical to the source's except
that tokens come from splitting on `"/"` alone, as the claim states. -/
def parse_blend_components_claim (blend_fibers blend_rt : String) : List (String × ℚ) :=
  if blend_fibers = "" || blend_rt = "" then []
  else
    let fibers := splitTokensSlash blend_fibers
    let ratiosNum := (splitTokensSlash blend_rt).filterMap findNumS
    if fibers = [] || ratiosNum = [] then []
    else
      let n := min fibers.length ratiosNum.length
      let fibers2 := fibers.take n
      let rn2 := ratiosNum.take n
      if rn2.sum ≤ 0 then []
      else (fibers2.zip rn2).map (fun p => (normFiberName p.1, p.2))

/-- Claim-side `derive_blend_features`, following the claim's words: split
on `"/"`, and take the cotton class membership to be `NATURAL_SET` (the
source instead counts only the fiber `"COTTON"`); synthetic, regenerated
and spandex classes as in the source. -/
def derive_blend_features_claim (blend_fibers blend_rt : String) : BlendFeatures :=
  let comps := parse_blend_components_claim blend_fibers blend_rt
  if comps = [] then ⟨none, none, none, none, none⟩
  else
    let total := (comps.map (fun p => p.2)).sum
    if total ≤ 0 then ⟨none, none, none, none, some comps.length⟩
    else
      ⟨some (round2 (classShare comps total (fun f => NATURAL_SET.contains f))),
        some (round2 (classShare comps total (fun f => SYNTHETIC_SET.contains f))),
        some (round2 (classShare comps total (fun f => REGENERATED_SET.contains f))),
        some (round2 (classShare comps total (fun f => f == "SPANDEX" || f == "POLYURETHANE"))),
        some comps.length⟩








/-! ## Claim theorems -/

/-- C6: a style code that is absent (empty) or whose stripped form is
shorter than 8 characters fails soft: `parse_item_code` returns `None`
and `enrich_sales_data` assigns the unknown values (알수없음) and the
default category 기타 to the row, without raising an error. -/
theorem short_code_fails_soft (code : String)
    (h : code = "" ∨ (pyStrip code.data).length < 8) :
    parse_item_code code = none ∧
      enrich_row code = ⟨"알수없음", "알수없음", "기타", "알수없음", "알수없음"⟩ := by
  have hp : parse_item_code code = none := by
    unfold parse_item_code
    rcases h with h | h
    · simp [h]
    · by_cases hc : code = ""
      · simp [hc]
      · simp [hc, h]
  refine ⟨hp, ?_⟩
  unfold enrich_row
  rw [hp]

/-- C6 witness at a concrete short code. -/
theorem short_code_fails_soft_witness :
    parse_item_code "ABC" = none ∧
      enrich_row "ABC" = ⟨"알수없음", "알수없음", "기타", "알수없음", "알수없음"⟩ :=
  short_code_fails_soft "ABC" (Or.inr (by decide))

/-- C7: for a style code of sufficient (stripped) length, decoding reads
fixed positions — brand at 0, gender at 1, item type at 2–3, sequence at
4–6, year at 7, season at 8 — and the enrichment maps gender, item,
category, year and season to their human-readable values solely through
`GENDER_MAPPING`, `ITEM_MAPPING`, `CATEGORY_MAPPING`, `YEAR_MAPPING` and
`SEASON_MAPPING`. -/
theorem code_fixed_positions (code : String)
    (h : 8 ≤ (pyStrip code.data).length) :
    parse_item_code code = some
      { brand := some ((pyStrip code.data).getD 0 ' ')
        gender := some ((pyStrip code.data).getD 1 ' ')
        item_code := some (String.mk (((pyStrip code.data).drop 2).take 2))
        sequence := some (String.mk (((pyStrip code.data).drop 4).take 3))
        year := some ((pyStrip code.data).getD 7 ' ')
        season :=
          if 9 ≤ (pyStrip code.data).length then some ((pyStrip code.data).getD 8 ' ')
          else none } ∧
    enrich_row code =
      { gender := pyGetC GENDER_MAPPING (some ((pyStrip code.data).getD 1 ' ')) "알수없음"
        item_name := pyGetS ITEM_MAPPING
          (some (String.mk (((pyStrip code.data).drop 2).take 2))) "알수없음"
        category := pyGetS CATEGORY_MAPPING
          (some (String.mk (((pyStrip code.data).drop 2).take 2))) "기타"
        year := pyGetC YEAR_MAPPING (some ((pyStrip code.data).getD 7 ' ')) "알수없음"
        season := pyGetC SEASON_MAPPING
          (if 9 ≤ (pyStrip code.data).length then some ((pyStrip code.data).getD 8 ' ')
           else none) "알수없음" } := by
  have hne : code ≠ "" := by
    rintro rfl
    simp [pyStrip] at h
  have hget : ∀ i : ℕ, i < (pyStrip code.data).length →
      (pyStrip code.data).get? i = some ((pyStrip code.data).getD i ' ') := by
    intro i hi
    rw [List.getD_eq_getD_get?]
    rcases List.get?_eq_some.mpr ⟨hi, rfl⟩ with h
    simp [List.get?_eq_getElem?] at h ⊢
    simp [List.getElem?_eq_getElem hi]
  have hp : parse_item_code code = some
      { brand := some ((pyStrip code.data).getD 0 ' ')
        gender := some ((pyStrip code.data).getD 1 ' ')
        item_code := some (String.mk (((pyStrip code.data).drop 2).take 2))
        sequence := some (String.mk (((pyStrip code.data).drop 4).take 3))
        year := some ((pyStrip code.data).getD 7 ' ')
        season :=
          if 9 ≤ (pyStrip code.data).length then some ((pyStrip code.data).getD 8 ' ')
          else none } := by
    unfold parse_item_code
    rw [if_neg hne, if_neg (by omega)]
    refine congrArg some ?_
    have h4 : 4 ≤ (pyStrip code.data).length := by omega
    have h7 : 7 ≤ (pyStrip code.data).length := by omega
    congr 1
    · exact hget 0 (by omega)
    · exact hget 1 (by omega)
    · rw [if_pos h4]
    · rw [if_pos h7]
    · rw [if_pos h, hget 7 (by omega)]
    · by_cases h9 : 9 ≤ (pyStrip code.data).length
      · rw [if_pos h9, if_pos h9, hget 8 (by omega)]
      · rw [if_neg h9, if_neg h9]
  refine ⟨hp, ?_⟩
  unfold enrich_row
  rw [hp]

/-- C7 witness at the concrete style code of the upload template. -/
theorem code_fixed_positions_witness :
    parse_item_code "TWPQ10953" = some
      { brand := some ((pyStrip "TWPQ10953".data).getD 0 ' ')
        gender := some ((pyStrip "TWPQ10953".data).getD 1 ' ')
        item_code := some (String.mk (((pyStrip "TWPQ10953".data).drop 2).take 2))
        sequence := some (String.mk (((pyStrip "TWPQ10953".data).drop 4).take 3))
        year := some ((pyStrip "TWPQ10953".data).getD 7 ' ')
        season :=
          if 9 ≤ (pyStrip "TWPQ10953".data).length then
            some ((pyStrip "TWPQ10953".data).getD 8 ' ')
          else none } ∧
    enrich_row "TWPQ10953" =
      { gender := pyGetC GENDER_MAPPING (some ((pyStrip "TWPQ10953".data).getD 1 ' ')) "알수없음"
        item_name := pyGetS ITEM_MAPPING
          (some (String.mk (((pyStrip "TWPQ10953".data).drop 2).take 2))) "알수없음"
        category := pyGetS CATEGORY_MAPPING
          (some (String.mk (((pyStrip "TWPQ10953".data).drop 2).take 2))) "기타"
        year := pyGetC YEAR_MAPPING (some ((pyStrip "TWPQ10953".data).getD 7 ' ')) "알수없음"
        season := pyGetC SEASON_MAPPING
          (if 9 ≤ (pyStrip "TWPQ10953".data).length then
            some ((pyStrip "TWPQ10953".data).getD 8 ' ')
           else none) "알수없음" } :=
  code_fixed_positions "TWPQ10953" (by decide)

/-- C10: `replace_sales_data` and `replace_material_data` clear the whole
target table before validating the upload; when preprocessing yields zero
records the call returns `False` with the delete already executed, so the
table's prior contents are gone even though the operation reported
failure. -/
theorem replace_empty_upload_loses_data (db : DBState)
    (up_s : List SalesRow) (up_m : List MaterialRow)
    (hs : up_s.map prepSalesRow = []) (hm : up_m.map prepMaterialRow = []) :
    (replace_sales_data db up_s).2 = false ∧
      (replace_sales_data db up_s).1.sales_data = [] ∧
      (replace_material_data db up_m).2 = false ∧
      (replace_material_data db up_m).1.material_data = [] := by
  unfold replace_sales_data replace_material_data
  rw [hs, hm]
  simp

/-- C10 witness: an empty upload against a database holding one sales row
and one material row wipes both tables while returning `False`. -/
theorem replace_empty_upload_loses_data_witness :
    (replace_sales_data
        ⟨[⟨"TWPQ10953", "BKS", 149000, "KNIT", "HS-17", "REGULAR", "REGULAR", 15, 2235000⟩],
          [⟨"HS-17", "", "", "", none, "", none, none, none⟩]⟩ []).2 = false ∧
      (replace_sales_data
        ⟨[⟨"TWPQ10953", "BKS", 149000, "KNIT", "HS-17", "REGULAR", "REGULAR", 15, 2235000⟩],
          [⟨"HS-17", "", "", "", none, "", none, none, none⟩]⟩ []).1.sales_data = [] ∧
      (replace_material_data
        ⟨[⟨"TWPQ10953", "BKS", 149000, "KNIT", "HS-17", "REGULAR", "REGULAR", 15, 2235000⟩],
          [⟨"HS-17", "", "", "", none, "", none, none, none⟩]⟩ []).2 = false ∧
      (replace_material_data
        ⟨[⟨"TWPQ10953", "BKS", 149000, "KNIT", "HS-17", "REGULAR", "REGULAR", 15, 2235000⟩],
          [⟨"HS-17", "", "", "", none, "", none, none, none⟩]⟩ []).1.material_data = [] :=
  replace_empty_upload_loses_data _ [] [] rfl rfl

/-- A tier-95 match also matches at tier 80 (dropping a constraint only
enlarges the match set). -/
lemma match95_imp_match80 (t : PredTarget) (r : HistRow) :
    match95 t r = true → match80 t r = true := by
  simp [match95, match80]
  tauto

lemma match80_imp_match65 (t : PredTarget) (r : HistRow) :
    match80 t r = true → match65 t r = true := by
  simp [match80, match65]
  tauto

lemma match65_imp_match45 (t : PredTarget) (r : HistRow) :
    match65 t r = true → match45 t r = true := by
  simp [match65, match45]
  tauto

/-- An empty tier-80 match set forces an empty tier-95 match set. -/
lemma filter95_nil_of_filter80_nil (rows : List HistRow) (t : PredTarget)
    (h : rows.filter (match80 t) = []) : rows.filter (match95 t) = [] := by
  rw [List.filter_eq_nil_iff] at h ⊢
  intro r hr hm
  exact h r hr (match95_imp_match80 t r hm)

lemma filter80_nil_of_filter65_nil (rows : List HistRow) (t : PredTarget)
    (h : rows.filter (match65 t) = []) : rows.filter (match80 t) = [] := by
  rw [List.filter_eq_nil_iff] at h ⊢
  intro r hr hm
  exact h r hr (match80_imp_match65 t r hm)

lemma filter65_nil_of_filter45_nil (rows : List HistRow) (t : PredTarget)
    (h : rows.filter (match45 t) = []) : rows.filter (match65 t) = [] := by
  rw [List.filter_eq_nil_iff] at h ⊢
  intro r hr hm
  exact h r hr (match65_imp_match45 t r hm)

/-- C1 (the `fn_predict` service is modelled from the spec, its code not
being in the repository): the combination predictor searches the
historical rows for an exact match on all six target fields; when a tier
is empty it drops the trailing constraints fit, material and then
manufacturing in turn, averages quantity and revenue over the surviving
matches, and reports the fixed confidence 95, 80, 65 or 45 of the tier it
stopped at; with no match even at the loosest tier it reports nothing. -/
theorem fn_predict_cascade (rows : List HistRow) (t : PredTarget) :
    (rows.filter (match95 t) ≠ [] →
      fn_predict rows t = some
        ⟨avgQty (rows.filter (match95 t)), avgAmt (rows.filter (match95 t)), 95⟩) ∧
    (rows.filter (match95 t) = [] → rows.filter (match80 t) ≠ [] →
      fn_predict rows t = some
        ⟨avgQty (rows.filter (match80 t)), avgAmt (rows.filter (match80 t)), 80⟩) ∧
    (rows.filter (match80 t) = [] → rows.filter (match65 t) ≠ [] →
      fn_predict rows t = some
        ⟨avgQty (rows.filter (match65 t)), avgAmt (rows.filter (match65 t)), 65⟩) ∧
    (rows.filter (match65 t) = [] → rows.filter (match45 t) ≠ [] →
      fn_predict rows t = some
        ⟨avgQty (rows.filter (match45 t)), avgAmt (rows.filter (match45 t)), 45⟩) ∧
    (rows.filter (match45 t) = [] → fn_predict rows t = none) := by
  refine ⟨?_, ?_, ?_, ?_, ?_⟩
  · intro h95
    unfold fn_predict
    rw [if_pos h95]
  · intro h95 h80
    unfold fn_predict
    rw [if_neg (by simpa using h95), if_pos h80]
  · intro h80 h65
    have h95 := filter95_nil_of_filter80_nil rows t h80
    unfold fn_predict
    rw [if_neg (by simpa using h95), if_neg (by simpa using h80), if_pos h65]
  · intro h65 h45
    have h80 := filter80_nil_of_filter65_nil rows t h65
    have h95 := filter95_nil_of_filter80_nil rows t h80
    unfold fn_predict
    rw [if_neg (by simpa using h95), if_neg (by simpa using h80),
      if_neg (by simpa using h65), if_pos h45]
  · intro h45
    have h65 := filter65_nil_of_filter45_nil rows t h45
    have h80 := filter80_nil_of_filter65_nil rows t h65
    have h95 := filter95_nil_of_filter80_nil rows t h80
    unfold fn_predict
    rw [if_neg (by simpa using h95), if_neg (by simpa using h80),
      if_neg (by simpa using h65), if_neg (by simpa using h45)]

/-- C1 witness: one historical row that matches the target on everything
but fit makes the predictor fall through tier 95 and answer at tier 80. -/
theorem fn_predict_cascade_witness :
    fn_predict [⟨"남성", "폴로티셔츠", "KNIT", "HS-17", "SLIM", "REGULAR", 15, 2235000⟩]
        ⟨"남성", "폴로티셔츠", "KNIT", "HS-17", "REGULAR", "REGULAR"⟩ = some
      ⟨avgQty ([⟨"남성", "폴로티셔츠", "KNIT", "HS-17", "SLIM", "REGULAR", 15, 2235000⟩].filter
          (match80 ⟨"남성", "폴로티셔츠", "KNIT", "HS-17", "REGULAR", "REGULAR"⟩)),
        avgAmt ([⟨"남성", "폴로티셔츠", "KNIT", "HS-17", "SLIM", "REGULAR", 15, 2235000⟩].filter
          (match80 ⟨"남성", "폴로티셔츠", "KNIT", "HS-17", "REGULAR", "REGULAR"⟩)), 80⟩ :=
  (fn_predict_cascade
      [⟨"남성", "폴로티셔츠", "KNIT", "HS-17", "SLIM", "REGULAR", 15, 2235000⟩]
      ⟨"남성", "폴로티셔츠", "KNIT", "HS-17", "REGULAR", "REGULAR"⟩).2.1
    (by decide) (by decide)

/-- C2 (the `fn_predict` service is modelled from the spec): whenever any
tier of the cascade has matching rows, the predictor answers with the
highest-confidence tier that has a match — every strictly
higher-confidence tier is certified empty — and never a lower tier. -/
theorem fn_predict_highest_tier (rows : List HistRow) (t : PredTarget)
    (hne : rows.filter (match45 t) ≠ []) :
    ∃ res, fn_predict rows t = some res ∧
      ((res.confidence = 95 ∧ rows.filter (match95 t) ≠ []) ∨
       (res.confidence = 80 ∧ rows.filter (match80 t) ≠ [] ∧
          rows.filter (match95 t) = []) ∨
       (res.confidence = 65 ∧ rows.filter (match65 t) ≠ [] ∧
          rows.filter (match95 t) = [] ∧ rows.filter (match80 t) = []) ∨
       (res.confidence = 45 ∧ rows.filter (match45 t) ≠ [] ∧
          rows.filter (match95 t) = [] ∧ rows.filter (match80 t) = [] ∧
          rows.filter (match65 t) = [])) := by
  unfold fn_predict
  by_cases h95 : rows.filter (match95 t) = []
  · rw [if_neg (by simpa using h95)]
    by_cases h80 : rows.filter (match80 t) = []
    · rw [if_neg (by simpa using h80)]
      by_cases h65 : rows.filter (match65 t) = []
      · rw [if_neg (by simpa using h65), if_pos hne]
        exact ⟨_, rfl, Or.inr (Or.inr (Or.inr ⟨rfl, hne, h95, h80, h65⟩))⟩
      · rw [if_pos h65]
        exact ⟨_, rfl, Or.inr (Or.inr (Or.inl ⟨rfl, h65, h95, h80⟩))⟩
    · rw [if_pos h80]
      exact ⟨_, rfl, Or.inr (Or.inl ⟨rfl, h80, h95⟩)⟩
  · rw [if_pos h95]
    exact ⟨_, rfl, Or.inl ⟨rfl, h95⟩⟩

/-- C2 witness: with a single row matching only at tier 80, the predictor
answers at tier 80 and the tier-95 match set is empty. -/
theorem fn_predict_highest_tier_witness :
    ∃ res, fn_predict
        [⟨"남성", "폴로티셔츠", "KNIT", "HS-17", "SLIM", "REGULAR", 15, 2235000⟩]
        ⟨"남성", "폴로티셔츠", "KNIT", "HS-17", "REGULAR", "REGULAR"⟩ = some res ∧
      ((res.confidence = 95 ∧
          [⟨"남성", "폴로티셔츠", "KNIT", "HS-17", "SLIM", "REGULAR", 15, 2235000⟩].filter
            (match95 ⟨"남성", "폴로티셔츠", "KNIT", "HS-17", "REGULAR", "REGULAR"⟩) ≠ []) ∨
       (res.confidence = 80 ∧
          [⟨"남성", "폴로티셔츠", "KNIT", "HS-17", "SLIM", "REGULAR", 15, 2235000⟩].filter
            (match80 ⟨"남성", "폴로티셔츠", "KNIT", "HS-17", "REGULAR", "REGULAR"⟩) ≠ [] ∧
          [⟨"남성", "폴로티셔츠", "KNIT", "HS-17", "SLIM", "REGULAR", 15, 2235000⟩].filter
            (match95 ⟨"남성", "폴로티셔츠", "KNIT", "HS-17", "REGULAR", "REGULAR"⟩) = []) ∨
       (res.confidence = 65 ∧
          [⟨"남성", "폴로티셔츠", "KNIT", "HS-17", "SLIM", "REGULAR", 15, 2235000⟩].filter
            (match65 ⟨"남성", "폴로티셔츠", "KNIT", "HS-17", "REGULAR", "REGULAR"⟩) ≠ [] ∧
          [⟨"남성", "폴로티셔츠", "KNIT", "HS-17", "SLIM", "REGULAR", 15, 2235000⟩].filter
            (match95 ⟨"남성", "폴로티셔츠", "KNIT", "HS-17", "REGULAR", "REGULAR"⟩) = [] ∧
          [⟨"남성", "폴로티셔츠", "KNIT", "HS-17", "SLIM", "REGULAR", 15, 2235000⟩].filter
            (match80 ⟨"남성", "폴로티셔츠", "KNIT", "HS-17", "REGULAR", "REGULAR"⟩) = []) ∨
       (res.confidence = 45 ∧
          [⟨"남성", "폴로티셔츠", "KNIT", "HS-17", "SLIM", "REGULAR", 15, 2235000⟩].filter
            (match45 ⟨"남성", "폴로티셔츠", "KNIT", "HS-17", "REGULAR", "REGULAR"⟩) ≠ [] ∧
          [⟨"남성", "폴로티셔츠", "KNIT", "HS-17", "SLIM", "REGULAR", 15, 2235000⟩].filter
            (match95 ⟨"남성", "폴로티셔츠", "KNIT", "HS-17", "REGULAR", "REGULAR"⟩) = [] ∧
          [⟨"남성", "폴로티셔츠", "KNIT", "HS-17", "SLIM", "REGULAR", 15, 2235000⟩].filter
            (match80 ⟨"남성", "폴로티셔츠", "KNIT", "HS-17", "REGULAR", "REGULAR"⟩) = [] ∧
          [⟨"남성", "폴로티셔츠", "KNIT", "HS-17", "SLIM", "REGULAR", 15, 2235000⟩].filter
            (match65 ⟨"남성", "폴로티셔츠", "KNIT", "HS-17", "REGULAR", "REGULAR"⟩) = [])) :=
  fn_predict_highest_tier
    [⟨"남성", "폴로티셔츠", "KNIT", "HS-17", "SLIM", "REGULAR", 15, 2235000⟩]
    ⟨"남성", "폴로티셔츠", "KNIT", "HS-17", "REGULAR", "REGULAR"⟩ (by decide)

/-- C3 counterexample: for the blend pair `("COTTON", "0")` there is one
fiber token and one numeric ratio token, so the claim promises exactly
`min 1 1 = 1` component, yet `parse_blend_components` returns the empty
list (the non-positive ratio sum discards the blend first). -/
theorem parse_blend_truncates_cex :
    parse_blend_components "COTTON" "0" = [] ∧
    min (splitTokens "COTTON").length ((splitTokens "0").filterMap findNumS).length = 1 := by
  constructor
  · simp +decide [parse_blend_components, splitTokens, splitRaw, isTokenDelim, pyStrip,
      findNumS, findNum, numAt, numCore, digitRun, natOfDigits]
  · decide

/-- C3 (amended): provided the truncated numeric ratios sum to a positive
value, `parse_blend_components` returns exactly
`min (#fiber tokens) (#numeric ratio tokens)` components, pairing the
i-th (normalised) fiber name with the i-th extracted ratio and silently
dropping all excess tokens of the longer list. -/
theorem parse_blend_truncates (bf rt : String)
    (h : 0 < (((splitTokens rt).filterMap findNumS).take
        (min (splitTokens bf).length ((splitTokens rt).filterMap findNumS).length)).sum) :
    parse_blend_components bf rt =
      (((splitTokens bf).take
          (min (splitTokens bf).length ((splitTokens rt).filterMap findNumS).length)).zip
        (((splitTokens rt).filterMap findNumS).take
          (min (splitTokens bf).length ((splitTokens rt).filterMap findNumS).length))).map
        (fun p => (normFiberName p.1, p.2)) ∧
    (parse_blend_components bf rt).length =
      min (splitTokens bf).length ((splitTokens rt).filterMap findNumS).length := by
  have hfe : splitTokens bf ≠ [] := by
    intro hemp
    rw [hemp] at h
    simp at h
  have hre : (splitTokens rt).filterMap findNumS ≠ [] := by
    intro hemp
    rw [hemp] at h
    simp at h
  have hbf : bf ≠ "" := by
    intro hb
    apply hfe
    rw [hb]
    decide
  have hrt : rt ≠ "" := by
    intro hb
    apply hre
    rw [hb]
    decide
  have hmain : parse_blend_components bf rt =
      (((splitTokens bf).take
          (min (splitTokens bf).length ((splitTokens rt).filterMap findNumS).length)).zip
        (((splitTokens rt).filterMap findNumS).take
          (min (splitTokens bf).length ((splitTokens rt).filterMap findNumS).length))).map
        (fun p => (normFiberName p.1, p.2)) := by
    unfold parse_blend_components
    rw [if_neg (by simp [hbf, hrt])]
    simp only []
    rw [if_neg (by simp [hfe, hre]), if_neg (not_le.mpr h)]
  refine ⟨hmain, ?_⟩
  rw [hmain]
  simp [List.length_zip, List.length_take]

/-- C3 witness at the blend pair `("COTTON/PE", "60/40")`. -/
theorem parse_blend_truncates_witness :
    parse_blend_components "COTTON/PE" "60/40" =
      (((splitTokens "COTTON/PE").take
          (min (splitTokens "COTTON/PE").length
            ((splitTokens "60/40").filterMap findNumS).length)).zip
        (((splitTokens "60/40").filterMap findNumS).take
          (min (splitTokens "COTTON/PE").length
            ((splitTokens "60/40").filterMap findNumS).length))).map
        (fun p => (normFiberName p.1, p.2)) ∧
    (parse_blend_components "COTTON/PE" "60/40").length =
      min (splitTokens "COTTON/PE").length
        ((splitTokens "60/40").filterMap findNumS).length :=
  parse_blend_truncates "COTTON/PE" "60/40" (by
    simp +decide [splitTokens, splitRaw, isTokenDelim, pyStrip,
      findNumS, findNum, numAt, numCore, digitRun, natOfDigits]
    norm_num)

/-- C4: when the parsed (truncated) numeric ratios sum to a non-positive
value, `parse_blend_components` returns the empty list and
`derive_blend_features` consequently returns `None` for every percentage
feature: the blend is discarded rather than producing percentages. -/
theorem blend_nonpositive_discarded (bf rt : String)
    (h : (((splitTokens rt).filterMap findNumS).take
        (min (splitTokens bf).length ((splitTokens rt).filterMap findNumS).length)).sum ≤ 0) :
    parse_blend_components bf rt = [] ∧
    derive_blend_features bf rt = ⟨none, none, none, none, none⟩ := by
  have hp : parse_blend_components bf rt = [] := by
    unfold parse_blend_components
    by_cases h1 : bf = ""
    · simp [h1]
    by_cases h2 : rt = ""
    · simp [h2]
    rw [if_neg (by simp [h1, h2])]
    simp only []
    by_cases h3 : splitTokens bf = []
    · rw [if_pos (by simp [h3])]
    by_cases h4 : (splitTokens rt).filterMap findNumS = []
    · rw [if_pos (by simp [h4])]
    rw [if_neg (by simp [h3, h4]), if_pos h]
  refine ⟨hp, ?_⟩
  unfold derive_blend_features
  rw [hp]
  simp

/-- C4 witness at the blend pair `("COTTON", "0")` (ratio sum `0`). -/
theorem blend_nonpositive_discarded_witness :
    parse_blend_components "COTTON" "0" = [] ∧
    derive_blend_features "COTTON" "0" = ⟨none, none, none, none, none⟩ :=
  blend_nonpositive_discarded "COTTON" "0" (by
    simp +decide [splitTokens, splitRaw, isTokenDelim, pyStrip,
      findNumS, findNum, numAt, numCore, digitRun, natOfDigits])

-- Helper: concrete evaluation of the blend parser on PU/COTTON.
set_option maxHeartbeats 1000000 in
lemma parse_pu_cotton_eq : parse_blend_components "PU/COTTON" "50/50" =
    [("SPANDEX", 50), ("COTTON", 50)] := by
  simp +decide [parse_blend_components, splitTokens, splitRaw,
    isTokenDelim, pyStrip, findNumS, findNum, numAt, numCore, digitRun, natOfDigits,
    normFiberName, cleanFiberName, FIBER_ALIASES, squeezeSpaces, isPySpace, isBracketChar]

-- Helper: concrete evaluation of the blend parser on POLYURETHANE/COTTON.
set_option maxHeartbeats 1000000 in
lemma parse_polyurethane_cotton_eq :
    parse_blend_components "POLYURETHANE/COTTON" "50/50" =
      [("POLYURETHANE", 50), ("COTTON", 50)] := by
  simp +decide [parse_blend_components, splitTokens, splitRaw,
    isTokenDelim, pyStrip, findNumS, findNum, numAt, numCore, digitRun, natOfDigits,
    normFiberName, cleanFiberName, FIBER_ALIASES, squeezeSpaces, isPySpace, isBracketChar]

/-- C9: a fiber token that normalises exactly to `"PU"` resolves to
`"SPANDEX"` (the SPANDEX alias list is scanned before the POLYURETHANE
one), so it feeds `pct_spandex` but not `pct_synthetic`, whereas a token
spelled out as `"POLYURETHANE"` feeds both. -/
theorem pu_alias_priority :
    (∀ name : String, cleanFiberName name = "PU" → normFiberName name = "SPANDEX") ∧
    normFiberName "POLYURETHANE" = "POLYURETHANE" ∧
    (derive_blend_features "PU/COTTON" "50/50").pct_spandex = some 50 ∧
    (derive_blend_features "PU/COTTON" "50/50").pct_synthetic = some 0 ∧
    (derive_blend_features "POLYURETHANE/COTTON" "50/50").pct_spandex = some 50 ∧
    (derive_blend_features "POLYURETHANE/COTTON" "50/50").pct_synthetic = some 50 := by
  refine ⟨?_, by decide, ?_, ?_, ?_, ?_⟩
  · intro name h
    have hne : name ≠ "" := by
      intro h0
      rw [h0] at h
      exact absurd h (by decide)
    unfold normFiberName
    rw [if_neg hne]
    simp only [h]
    decide
  all_goals
    first
      | (unfold derive_blend_features
         rw [parse_pu_cotton_eq]
         simp +decide [blendStep, NATURAL_SET, SYNTHETIC_SET, REGENERATED_SET]
         norm_num [round2, pyRoundInt])
      | (unfold derive_blend_features
         rw [parse_polyurethane_cotton_eq]
         simp +decide [blendStep, NATURAL_SET, SYNTHETIC_SET, REGENERATED_SET]
         norm_num [round2, pyRoundInt])

/-- C9 witness: the token `" pu "` (with stray spaces and lowercase)
cleans to `"PU"` and resolves to `"SPANDEX"`. -/
theorem pu_alias_priority_witness : normFiberName " pu " = "SPANDEX" :=
  pu_alias_priority.1 " pu " (by decide)

-- Distributing the division and scaling out of a per-component sum.
lemma sum_div_mul (l : List (String × ℚ)) (total : ℚ) :
    (l.map (fun p => p.2 / total * 100)).sum = ((l.map (fun p => p.2)).sum) / total * 100 := by
  induction l with
  | nil => simp
  | cons p tl ih =>
    simp [ih]
    ring

-- The accumulation loop of derive_blend_features, characterised as four
-- filtered sums.
lemma blendStep_foldl (total : ℚ) (comps : List (String × ℚ)) (a b c d : ℚ) :
    comps.foldl (blendStep total) (a, b, c, d) =
      (a + ((comps.filter (fun p => NATURAL_SET.contains p.1 && p.1 == "COTTON")).map
          (fun p => p.2 / total * 100)).sum,
       b + ((comps.filter (fun p => SYNTHETIC_SET.contains p.1)).map
          (fun p => p.2 / total * 100)).sum,
       c + ((comps.filter (fun p => REGENERATED_SET.contains p.1)).map
          (fun p => p.2 / total * 100)).sum,
       d + ((comps.filter (fun p => p.1 == "SPANDEX" || p.1 == "POLYURETHANE")).map
          (fun p => p.2 / total * 100)).sum) := by
  induction comps generalizing a b c d with
  | nil => simp
  | cons p tl ih =>
    simp only [List.foldl_cons, List.filter_cons]
    rw [ih]
    cases hb1 : (NATURAL_SET.contains p.1 && p.1 == "COTTON") <;>
    cases hb2 : SYNTHETIC_SET.contains p.1 <;>
    cases hb3 : REGENERATED_SET.contains p.1 <;>
    cases hb4 : (p.1 == "SPANDEX" || p.1 == "POLYURETHANE") <;>
      simp only [blendStep, hb1, hb2, hb3, hb4, Bool.false_eq_true, if_false, if_true,
        List.map_cons, List.sum_cons, Prod.mk.injEq, ite_true, ite_false] <;>
      and_intros <;> ring

-- A nonempty component list forces a positive total ratio (the parser's
-- final guard).
lemma parse_comps_sum_pos (bf rt : String) (h : parse_blend_components bf rt ≠ []) :
    0 < ((parse_blend_components bf rt).map (fun p => p.2)).sum := by
  by_cases h1 : bf = ""
  · rw [parse_blend_components, if_pos (by simp [h1])] at h
    exact absurd rfl h
  by_cases h2 : rt = ""
  · rw [parse_blend_components, if_pos (by simp [h2])] at h
    exact absurd rfl h
  by_cases h3 : splitTokens bf = []
  · rw [parse_blend_components, if_neg (by simp [h1, h2])] at h
    simp only [] at h
    rw [if_pos (by simp [h3])] at h
    exact absurd rfl h
  by_cases h4 : (splitTokens rt).filterMap findNumS = []
  · rw [parse_blend_components, if_neg (by simp [h1, h2])] at h
    simp only [] at h
    rw [if_pos (by simp [h4])] at h
    exact absurd rfl h
  by_cases h5 : (((splitTokens rt).filterMap findNumS).take
      (min (splitTokens bf).length ((splitTokens rt).filterMap findNumS).length)).sum ≤ 0
  · rw [parse_blend_components, if_neg (by simp [h1, h2])] at h
    simp only [] at h
    rw [if_neg (by simp [h3, h4]), if_pos h5] at h
    exact absurd rfl h
  · have hmain : parse_blend_components bf rt =
        (((splitTokens bf).take
            (min (splitTokens bf).length ((splitTokens rt).filterMap findNumS).length)).zip
          (((splitTokens rt).filterMap findNumS).take
            (min (splitTokens bf).length ((splitTokens rt).filterMap findNumS).length))).map
          (fun p => (normFiberName p.1, p.2)) := by
      rw [parse_blend_components, if_neg (by simp [h1, h2])]
      simp only []
      rw [if_neg (by simp [h3, h4]), if_neg h5]
    rw [hmain, List.map_map]
    have hsnd : (fun p => Prod.snd p) ∘ (fun p : String × ℚ => (normFiberName p.1, p.2)) =
        fun p : String × ℚ => p.2 := rfl
    have hz : List.map ((fun p => Prod.snd p) ∘ (fun p : String × ℚ => (normFiberName p.1, p.2)))
        (((splitTokens bf).take
            (min (splitTokens bf).length ((splitTokens rt).filterMap findNumS).length)).zip
          (((splitTokens rt).filterMap findNumS).take
            (min (splitTokens bf).length ((splitTokens rt).filterMap findNumS).length))) =
        ((splitTokens rt).filterMap findNumS).take
          (min (splitTokens bf).length ((splitTokens rt).filterMap findNumS).length) := by
      rw [hsnd]
      have := List.map_snd_zip
        ((splitTokens bf).take
          (min (splitTokens bf).length ((splitTokens rt).filterMap findNumS).length))
        (((splitTokens rt).filterMap findNumS).take
          (min (splitTokens bf).length ((splitTokens rt).filterMap findNumS).length))
        (by simp [List.length_take])
      simpa using this
    rw [hz]
    exact lt_of_not_le (fun hc => h5 hc)

-- The banker's rounding of a rational never drops below an integer lower
-- bound of its argument.
lemma pyRoundInt_ge (x : ℚ) (n : ℤ) (h : (n : ℚ) ≤ x) : n ≤ pyRoundInt x := by
  have hf : n ≤ ⌊x⌋ := Int.le_floor.mpr h
  unfold pyRoundInt
  simp only []
  split_ifs <;> omega

-- The banker's rounding of a rational never exceeds an integer upper
-- bound of its argument.
lemma pyRoundInt_le (x : ℚ) (n : ℤ) (h : x ≤ n) : pyRoundInt x ≤ n := by
  have hf : ⌊x⌋ ≤ n := by
    calc ⌊x⌋ ≤ ⌊(n : ℚ)⌋ := Int.floor_le_floor h
    _ = n := Int.floor_intCast n
  unfold pyRoundInt
  simp only []
  split_ifs with h1 h2 h3
  · exact hf
  · have hlt : (⌊x⌋ : ℚ) < n := by
      have hx : (⌊x⌋ : ℚ) ≤ x - 1 / 2 := by
        have := Int.floor_le x
        linarith
      linarith
    have : ⌊x⌋ < n := by exact_mod_cast hlt
    omega
  · exact hf
  · have hr : x - ⌊x⌋ = 1 / 2 := le_antisymm (not_lt.mp h2) (not_lt.mp h1)
    have hlt : (⌊x⌋ : ℚ) < n := by linarith
    have : ⌊x⌋ < n := by exact_mod_cast hlt
    omega

-- round(-, 2) keeps values inside [0, 100].
lemma round2_bounds (q : ℚ) (h0 : 0 ≤ q) (h100 : q ≤ 100) :
    0 ≤ round2 q ∧ round2 q ≤ 100 := by
  unfold round2
  constructor
  · have hge := pyRoundInt_ge (q * 100) 0 (by positivity)
    have : (0 : ℚ) ≤ (pyRoundInt (q * 100) : ℚ) := by exact_mod_cast hge
    positivity
  · have hle := pyRoundInt_le (q * 100) 10000 (by push_cast; linarith)
    rw [div_le_iff₀ (by norm_num)]
    calc ((pyRoundInt (q * 100)) : ℚ) ≤ ((10000 : ℤ) : ℚ) := by exact_mod_cast hle
    _ = 100 * 100 := by norm_num

lemma filter_snd_sum_nonneg (l : List (String × ℚ)) (c : String × ℚ → Bool)
    (h : ∀ p ∈ l, 0 ≤ p.2) : 0 ≤ ((l.filter c).map (fun p => p.2)).sum := by
  apply List.sum_nonneg
  intro x hx
  rw [List.mem_map] at hx
  obtain ⟨p, hp, rfl⟩ := hx
  exact h p (List.mem_of_mem_filter hp)

lemma filter_snd_sum_le (l : List (String × ℚ)) (c : String × ℚ → Bool)
    (h : ∀ p ∈ l, 0 ≤ p.2) :
    ((l.filter c).map (fun p => p.2)).sum ≤ (l.map (fun p => p.2)).sum := by
  induction l with
  | nil => simp
  | cons p tl ih =>
    have h' : ∀ q ∈ tl, 0 ≤ q.2 := fun q hq => h q (List.mem_cons_of_mem _ hq)
    have hp := h p (List.mem_cons_self p tl)
    rw [List.filter_cons]
    by_cases hc : c p = true
    · rw [if_pos hc]
      simp only [List.map_cons, List.sum_cons]
      linarith [ih h']
    · rw [if_neg hc]
      simp only [List.map_cons, List.sum_cons]
      linarith [ih h']

-- A class share of a blend with nonnegative ratios lies in [0, 100].
lemma share_bounds (l : List (String × ℚ)) (c : String × ℚ → Bool)
    (hpos : ∀ p ∈ l, 0 ≤ p.2) (htot : 0 < (l.map (fun p => p.2)).sum) :
    0 ≤ ((l.filter c).map (fun p => p.2)).sum / (l.map (fun p => p.2)).sum * 100 ∧
    ((l.filter c).map (fun p => p.2)).sum / (l.map (fun p => p.2)).sum * 100 ≤ 100 := by
  constructor
  · have := filter_snd_sum_nonneg l c hpos
    positivity
  · have hle := filter_snd_sum_le l c hpos
    calc ((l.filter c).map (fun p => p.2)).sum / (l.map (fun p => p.2)).sum * 100
        ≤ 1 * 100 := by
          apply mul_le_mul_of_nonneg_right _ (by norm_num)
          exact (div_le_one htot).mpr hle
    _ = 100 := by norm_num

set_option maxHeartbeats 1000000 in
lemma parse_cotton_pe_eq : parse_blend_components "COTTON/PE" "60/40" =
    [("COTTON", 60), ("POLYESTER", 40)] := by
  simp +decide [parse_blend_components, splitTokens, splitRaw,
    isTokenDelim, pyStrip, findNumS, findNum, numAt, numCore, digitRun, natOfDigits,
    normFiberName, cleanFiberName, FIBER_ALIASES, squeezeSpaces, isPySpace, isBracketChar]
  norm_num

set_option maxHeartbeats 1000000 in
lemma parse_cotton_wool_eq : parse_blend_components "COTTON/WOOL" "-5/10" =
    [("COTTON", -5), ("WOOL", 10)] := by
  simp +decide [parse_blend_components, splitTokens, splitRaw,
    isTokenDelim, pyStrip, findNumS, findNum, numAt, numCore, digitRun, natOfDigits,
    normFiberName, cleanFiberName, FIBER_ALIASES, squeezeSpaces, isPySpace, isBracketChar]

/-- C8 counterexample: the blend pair `("COTTON/WOOL", "-5/10")` parses
(its ratio sum `5` is positive) but the cotton share comes out as `-100`,
outside the claimed interval `[0, 100]`. -/
theorem blend_pct_bounds_cex :
    (derive_blend_features "COTTON/WOOL" "-5/10").pct_cotton = some (-100) ∧
    ((-100 : ℚ) < 0) := by
  refine ⟨?_, by norm_num⟩
  unfold derive_blend_features
  rw [parse_cotton_wool_eq]
  simp +decide [blendStep, NATURAL_SET, SYNTHETIC_SET, REGENERATED_SET]
  norm_num [round2, pyRoundInt]

/-- C8 (amended): for a blend that parses and all of whose parsed ratios
are nonnegative, every percentage feature lies in `[0, 100]` and
`n_fibers` equals the number of parsed components. -/
theorem blend_pct_bounds (bf rt : String)
    (hne : parse_blend_components bf rt ≠ [])
    (hpos : ∀ p ∈ parse_blend_components bf rt, 0 ≤ p.2) :
    ∃ qc qs qr qp : ℚ,
      derive_blend_features bf rt =
        ⟨some qc, some qs, some qr, some qp, some (parse_blend_components bf rt).length⟩ ∧
      0 ≤ qc ∧ qc ≤ 100 ∧ 0 ≤ qs ∧ qs ≤ 100 ∧ 0 ≤ qr ∧ qr ≤ 100 ∧ 0 ≤ qp ∧ qp ≤ 100 := by
  have htot := parse_comps_sum_pos bf rt hne
  have h1 := share_bounds (parse_blend_components bf rt)
    (fun p => NATURAL_SET.contains p.1 && p.1 == "COTTON") hpos htot
  have h2 := share_bounds (parse_blend_components bf rt)
    (fun p => SYNTHETIC_SET.contains p.1) hpos htot
  have h3 := share_bounds (parse_blend_components bf rt)
    (fun p => REGENERATED_SET.contains p.1) hpos htot
  have h4 := share_bounds (parse_blend_components bf rt)
    (fun p => p.1 == "SPANDEX" || p.1 == "POLYURETHANE") hpos htot
  unfold derive_blend_features
  rw [if_neg hne]
  simp only []
  rw [if_neg (not_le.mpr htot), blendStep_foldl]
  simp only [zero_add, sum_div_mul]
  exact ⟨_, _, _, _, rfl,
    (round2_bounds _ h1.1 h1.2).1, (round2_bounds _ h1.1 h1.2).2,
    (round2_bounds _ h2.1 h2.2).1, (round2_bounds _ h2.1 h2.2).2,
    (round2_bounds _ h3.1 h3.2).1, (round2_bounds _ h3.1 h3.2).2,
    (round2_bounds _ h4.1 h4.2).1, (round2_bounds _ h4.1 h4.2).2⟩

/-- C8 witness at the blend pair `("COTTON/PE", "60/40")`. -/
theorem blend_pct_bounds_witness :
    ∃ qc qs qr qp : ℚ,
      derive_blend_features "COTTON/PE" "60/40" =
        ⟨some qc, some qs, some qr, some qp,
          some (parse_blend_components "COTTON/PE" "60/40").length⟩ ∧
      0 ≤ qc ∧ qc ≤ 100 ∧ 0 ≤ qs ∧ qs ≤ 100 ∧ 0 ≤ qr ∧ qr ≤ 100 ∧ 0 ≤ qp ∧ qp ≤ 100 :=
  blend_pct_bounds "COTTON/PE" "60/40"
    (by rw [parse_cotton_pe_eq]; simp)
    (by rw [parse_cotton_pe_eq]; intro p hp; fin_cases hp <;> norm_num)

set_option maxHeartbeats 1000000 in
lemma parse_wool_eq : parse_blend_components "WOOL" "100" = [("WOOL", 100)] := by
  simp +decide [parse_blend_components, splitTokens, splitRaw,
    isTokenDelim, pyStrip, findNumS, findNum, numAt, numCore, digitRun, natOfDigits,
    normFiberName, cleanFiberName, FIBER_ALIASES, squeezeSpaces, isPySpace, isBracketChar]

set_option maxHeartbeats 1000000 in
lemma parse_claim_wool_eq : parse_blend_components_claim "WOOL" "100" = [("WOOL", 100)] := by
  simp +decide [parse_blend_components_claim, splitTokensSlash, splitRawSlash,
    pyStrip, findNumS, findNum, numAt, numCore, digitRun, natOfDigits,
    normFiberName, cleanFiberName, FIBER_ALIASES, squeezeSpaces, isPySpace, isBracketChar]

/-- C5 counterexample: the source tokenises on `","` and `"|"` as well as
`"/"` (so `"COTTON,PE"` yields two tokens, not the single token the
claim's split-on-`"/"` reading yields), and the cotton class counts only
the fiber `COTTON`, not all of `NATURAL_SET`: a pure-wool blend gets
`pct_cotton = 0` from the code while the claim's membership reading gives
`100`. -/
theorem derive_blend_claim_cex :
    splitTokens "COTTON,PE" = ["COTTON", "PE"] ∧
    splitTokensSlash "COTTON,PE" = ["COTTON,PE"] ∧
    (derive_blend_features_claim "WOOL" "100").pct_cotton = some 100 ∧
    (derive_blend_features "WOOL" "100").pct_cotton = some 0 := by
  refine ⟨by decide, by decide, ?_, ?_⟩
  · unfold derive_blend_features_claim
    rw [parse_claim_wool_eq]
    simp +decide [classShare, NATURAL_SET]
    norm_num [round2, pyRoundInt]
  · unfold derive_blend_features
    rw [parse_wool_eq]
    simp +decide [blendStep, NATURAL_SET, SYNTHETIC_SET, REGENERATED_SET]
    norm_num [round2, pyRoundInt]

/-- C5 (amended): for every blend pair that parses into components, the
features are, for each class, the sum of the ratios of the components of
that class divided by the total ratio, times 100, rounded to two
decimals — where tokens are split on `"/"`, `","` or `"|"`, fiber names
are normalised through the alias tables, and the classes are: cotton =
the fiber `COTTON` (the `NATURAL_SET` member equal to `"COTTON"`),
synthetic = `SYNTHETIC_SET`, regenerated = `REGENERATED_SET`, spandex =
`{SPANDEX, POLYURETHANE}`. -/
theorem derive_blend_pct_shares (bf rt : String)
    (h : parse_blend_components bf rt ≠ []) :
    derive_blend_features bf rt =
      ⟨some (round2 (classShare (parse_blend_components bf rt)
          (((parse_blend_components bf rt).map (fun p => p.2)).sum)
          (fun f => NATURAL_SET.contains f && f == "COTTON"))),
       some (round2 (classShare (parse_blend_components bf rt)
          (((parse_blend_components bf rt).map (fun p => p.2)).sum)
          (fun f => SYNTHETIC_SET.contains f))),
       some (round2 (classShare (parse_blend_components bf rt)
          (((parse_blend_components bf rt).map (fun p => p.2)).sum)
          (fun f => REGENERATED_SET.contains f))),
       some (round2 (classShare (parse_blend_components bf rt)
          (((parse_blend_components bf rt).map (fun p => p.2)).sum)
          (fun f => f == "SPANDEX" || f == "POLYURETHANE"))),
       some (parse_blend_components bf rt).length⟩ := by
  have htot := parse_comps_sum_pos bf rt h
  unfold derive_blend_features
  rw [if_neg h]
  simp only []
  rw [if_neg (not_le.mpr htot), blendStep_foldl]
  simp only [zero_add, sum_div_mul, classShare]

/-- C5 witness at the blend pair `("COTTON/PE", "60/40")`. -/
theorem derive_blend_pct_shares_witness :
    derive_blend_features "COTTON/PE" "60/40" =
      ⟨some (round2 (classShare (parse_blend_components "COTTON/PE" "60/40")
          (((parse_blend_components "COTTON/PE" "60/40").map (fun p => p.2)).sum)
          (fun f => NATURAL_SET.contains f && f == "COTTON"))),
       some (round2 (classShare (parse_blend_components "COTTON/PE" "60/40")
          (((parse_blend_components "COTTON/PE" "60/40").map (fun p => p.2)).sum)
          (fun f => SYNTHETIC_SET.contains f))),
       some (round2 (classShare (parse_blend_components "COTTON/PE" "60/40")
          (((parse_blend_components "COTTON/PE" "60/40").map (fun p => p.2)).sum)
          (fun f => REGENERATED_SET.contains f))),
       some (round2 (classShare (parse_blend_components "COTTON/PE" "60/40")
          (((parse_blend_components "COTTON/PE" "60/40").map (fun p => p.2)).sum)
          (fun f => f == "SPANDEX" || f == "POLYURETHANE"))),
       some (parse_blend_components "COTTON/PE" "60/40").length⟩ :=
  derive_blend_pct_shares "COTTON/PE" "60/40" (by rw [parse_cotton_pe_eq]; simp)
